import Mathlib

/-!
Verification of the Incremental List Loader & Search Coordinator of the
patient-forms dashboard (openmrs-esm-patient-chart, esm-patient-forms-app).

The development shallowly embeds:
- the data model (`Form`, `CompletedFormInfo`, `FormSection` from types.ts);
- the client-side fuzzy filtering of `FormsList` (`filteredForms` memo);
- the debounced search handler wiring (`handleSearch`, the `handleSearch`
  prop of `FormsTable`);
- the three continuation trigger paths of the infinite-scroll `FormsList`
  (the IntersectionObserver callback, the `setLoadMoreRef` attachment-time
  check, and the post-render force re-check effect) together with the
  render-snapshot semantics of the values their closures capture;
- the render-level early returns of `FormsList` and `FormsDashboard`;
- the parts of the incremental loader (the `useInfiniteForms` hook) that are
  not part of the sources at hand, modelled from the specification.
-/

namespace FormsApp

/-! ## Data model (types.ts) -/

/-- A clinical form record: `uuid`, `name`, optional `display`, plus the
metadata fields the core never inspects. -/
structure Form where
  uuid : String
  name : String
  display : Option String
  published : Bool
  retired : Bool
  version : String
deriving DecidableEq, Repr

/-- An encounter referencing a form (only the identifier is read by the
table-building code). -/
structure EncounterWithFormRef where
  uuid : String
deriving DecidableEq, Repr

/-- `CompletedFormInfo`: a form together with its associated encounters and
optional last-completion date (modelled as an abstract timestamp). -/
structure CompletedFormInfo where
  form : Form
  associatedEncounters : List EncounterWithFormRef
  lastCompletedDate : Option Nat
deriving DecidableEq, Repr

/-- A configured form section: a name and the list of form uuids/names that
belong to it. -/
structure FormSection where
  name : String
  forms : List String
deriving DecidableEq, Repr

/-! ## Fuzzy filter (FormsList `filteredForms` memo)

`fuzzy.filter(searchTerm, completedForms, { extract: fi => fi.form.display ??
fi.form.name })` scores each item's display label; items without a match are
dropped; the result is sorted by ascending score and mapped back to the
original records.  The matching library's scoring function is a black box:
it is a parameter `score : String → String → Option Nat`, `none` meaning no
match. -/

/-- The label handed to the matcher: `formInfo.form.display ?? formInfo.form.name`. -/
def displayLabel (fi : CompletedFormInfo) : String :=
  fi.form.display.getD fi.form.name

/-- `fuzzy.filter term l`: each item that the scorer matches, paired with its
score, in input order. -/
def fuzzyFilter (score : String → String → Option Nat) (term : String)
    (l : List CompletedFormInfo) : List (Nat × CompletedFormInfo) :=
  l.filterMap fun fi => (score term (displayLabel fi)).map fun s => (s, fi)

/-- The comparator `(r1, r2) => r1.score - r2.score`: order scored results by
ascending score. -/
def scoreLE (a b : Nat × CompletedFormInfo) : Prop := a.1 ≤ b.1

instance : DecidableRel scoreLE := fun a b => Nat.decLe a.1 b.1

instance : IsTotal (Nat × CompletedFormInfo) scoreLE :=
  ⟨fun a b => Nat.le_total a.1 b.1⟩

instance : IsTrans (Nat × CompletedFormInfo) scoreLE :=
  ⟨fun _ _ _ h1 h2 => Nat.le_trans h1 h2⟩

/-- The `filteredForms` memo of the infinite-scroll `FormsList`: with
server-side search (`enableInfiniteScrolling && onSearch`) no client filtering
happens; an empty term returns the accumulated list unchanged; otherwise the
scored matches are sorted ascending and unwrapped. -/
def filteredForms (score : String → String → Option Nat)
    (enableInfiniteScrolling hasOnSearch : Bool) (searchTerm : String)
    (completedForms : List CompletedFormInfo) : List CompletedFormInfo :=
  if enableInfiniteScrolling && hasOnSearch then completedForms
  else if searchTerm = "" then completedForms
  else (List.insertionSort scoreLE (fuzzyFilter score searchTerm completedForms)).map Prod.snd

/-- The `filteredForms` memo of the client-mode `FormsList` (no infinite
scrolling branch). -/
def filteredFormsClient (score : String → String → Option Nat)
    (searchTerm : String) (completedForms : List CompletedFormInfo) :
    List CompletedFormInfo :=
  if searchTerm = "" then completedForms
  else (List.insertionSort scoreLE (fuzzyFilter score searchTerm completedForms)).map Prod.snd

theorem fuzzyFilter_score_eq (score : String → String → Option Nat)
    (term : String) (l : List CompletedFormInfo) :
    ∀ p ∈ fuzzyFilter score term l, score term (displayLabel p.2) = some p.1 := by
  intro p hp
  rcases List.mem_filterMap.mp hp with ⟨fi, _, hfi⟩
  rcases hs : score term (displayLabel fi) with _ | s <;> rw [hs] at hfi
  · simp at hfi
  · simp only [Option.map_some', Option.some.injEq] at hfi
    rw [← hfi]
    exact hs

theorem filterMap_label_eq_map_fst (score : String → String → Option Nat)
    (term : String) :
    ∀ L : List (Nat × CompletedFormInfo),
      (∀ p ∈ L, score term (displayLabel p.2) = some p.1) →
      (L.map Prod.snd).filterMap (fun fi => score term (displayLabel fi)) = L.map Prod.fst := by
  intro L
  induction L with
  | nil => intro _; rfl
  | cons p ps ih =>
    intro h
    have hp := h p (List.mem_cons_self p ps)
    simp only [List.map_cons, List.filterMap_cons, hp]
    rw [ih fun q hq => h q (List.mem_cons_of_mem p hq)]

/-! ## Debounced search (lodash `debounce`, trailing edge)

`handleSearch` in the infinite-scroll `FormsList` is `debounce(fn, 1000)`;
the client-mode `FormsList` uses `debounce(setSearchTerm, 300)`.  Input
events are `(time, rawValue)` pairs with strictly increasing times; a
trailing-edge debounce fires `interval` after the last call of a burst. -/

/-- Trailing-edge debounce over a timestamped input sequence: an input whose
successor arrives within `interval` is coalesced away; otherwise it produces
one emission `interval` after it. -/
def debounceEmits (interval : Nat) : List (Nat × String) → List (Nat × String)
  | [] => []
  | [(t, v)] => [(t + interval, v)]
  | (t, v) :: (t2, v2) :: rest =>
    if t2 < t + interval then debounceEmits interval ((t2, v2) :: rest)
    else (t + interval, v) :: debounceEmits interval ((t2, v2) :: rest)

/-- A burst of inputs faster than the debounce interval. -/
def rapid (interval : Nat) (inputs : List (Nat × String)) : Prop :=
  List.Chain' (fun a b => b.1 < a.1 + interval) inputs

/-- What the search input is wired to in the infinite-scroll `FormsList`:
`handleSearch={onSearch ? onSearch : handleSearch}` — with a server-side
search handler present, raw inputs are forwarded as-is; otherwise they go
through the 1000ms debounced handler. -/
def searchEmissions (enableInfiniteScrolling hasOnSearch : Bool)
    (inputs : List (Nat × String)) : List (Nat × String) :=
  if enableInfiniteScrolling then
    if hasOnSearch then inputs else debounceEmits 1000 inputs
  else debounceEmits 1000 inputs

/-- What the search input is wired to in the client-mode `FormsList`:
`debounce(setSearchTerm, 300)`. -/
def searchEmissionsClient (inputs : List (Nat × String)) : List (Nat × String) :=
  debounceEmits 300 inputs

/-! ## Continuation trigger paths (infinite-scroll `FormsList`)

Three code paths may call `loadMore`:
1. the IntersectionObserver callback:
   `if (first.isIntersecting && hasMore && !isValidating) loadMore()`;
2. the 100ms timeout inside `setLoadMoreRef` (attached only when
   `node && observerRef.current && hasMore && enableInfiniteScrolling`):
   `if (node.getBoundingClientRect().top < window.innerHeight && hasMore && !isValidating) loadMore?.()`;
3. the force re-check effect, entered only when
   `enableInfiniteScrolling && hasMore && !isValidating && loadMore`, whose
   300ms timeout calls `loadMore()` when `shouldLoadMore` holds.

All geometry is modelled over integers; the `0.8 * viewportHeight`
comparison is scaled by 10 to stay exact. -/

/-- Guard of the IntersectionObserver callback. -/
def observerGuard (isIntersecting hasMore isValidating : Bool) : Bool :=
  isIntersecting && hasMore && !isValidating

/-- Observe-time condition inside `setLoadMoreRef`. -/
def attachObserveGuard (nodePresent observerPresent hasMore enableInfiniteScrolling : Bool) : Bool :=
  nodePresent && observerPresent && hasMore && enableInfiniteScrolling

/-- Guard of the 100ms timeout inside `setLoadMoreRef`. -/
def attachTimeoutGuard (nodeTop innerHeight : Int) (hasMore isValidating : Bool) : Bool :=
  decide (nodeTop < innerHeight) && hasMore && !isValidating

/-- Entry guard of the force re-check effect. -/
def recheckEffectGuard (enableInfiniteScrolling hasMore isValidating loadMorePresent : Bool) : Bool :=
  enableInfiniteScrolling && hasMore && !isValidating && loadMorePresent

/-- The `shouldLoadMore` computation inside the force re-check timeout,
guarded by the container element being present. -/
def recheckShouldLoadMore (containerPresent : Bool)
    (containerHeight viewportHeight : Int) (loadMoreRefPresent : Bool)
    (loadMoreTop : Int) (isRFESection formsPresent : Bool)
    (formsCount totalLoaded : Nat) : Bool :=
  containerPresent &&
    (decide (containerHeight * 10 < viewportHeight * 8) ||
     (loadMoreRefPresent && decide (loadMoreTop < viewportHeight)) ||
     (isRFESection && formsPresent && decide (formsCount < 20) &&
       decide (formsCount < totalLoaded)))

/-- Whether the force re-check path ends up calling `loadMore`: the effect
guard admitted the timeout and `shouldLoadMore` held when it fired. -/
def recheckAdmits (enableInfiniteScrolling hasMore isValidating loadMorePresent : Bool)
    (containerPresent : Bool) (containerHeight viewportHeight : Int)
    (loadMoreRefPresent : Bool) (loadMoreTop : Int)
    (isRFESection formsPresent : Bool) (formsCount totalLoaded : Nat) : Bool :=
  recheckEffectGuard enableInfiniteScrolling hasMore isValidating loadMorePresent &&
    recheckShouldLoadMore containerPresent containerHeight viewportHeight
      loadMoreRefPresent loadMoreTop isRFESection formsPresent formsCount totalLoaded

/-! ## Render-snapshot semantics of the observer callback

The observer callback is a closure created by the effect; `hasMore` and
`isValidating` inside it are the prop values of the render that ran the
effect.  They change only when a re-render propagates new props and the
effect re-runs (both are in its dependency array); an intersection event
reads the snapshot and calls `loadMore`, mutating nothing synchronously. -/

/-- The prop values captured by the observer callback's closure. -/
structure ObserverSnapshot where
  hasMore : Bool
  isValidating : Bool
deriving DecidableEq, Repr

/-- Scroller state: the current closure snapshot and how many times
`loadMore` has been called. -/
structure ScrollerState where
  snap : ObserverSnapshot
  loadMoreCalls : Nat
deriving DecidableEq, Repr

/-- Events reaching the observer machinery: an intersection change, or a
re-render that refreshes the closure's snapshot. -/
inductive ScrollEvent
  | intersect (isIntersecting : Bool)
  | rerender (snap : ObserverSnapshot)
deriving DecidableEq, Repr

/-- One event step of the observer machinery.  An admitted intersection only
calls `loadMore`; it does not modify the snapshot — in particular it does not
set the busy condition the guard reads. -/
def scrollStep (s : ScrollerState) : ScrollEvent → ScrollerState
  | .intersect ii =>
    if observerGuard ii s.snap.hasMore s.snap.isValidating then
      { s with loadMoreCalls := s.loadMoreCalls + 1 }
    else s
  | .rerender p => { s with snap := p }

/-- Run a sequence of events. -/
def scrollRun (s : ScrollerState) : List ScrollEvent → ScrollerState
  | [] => s
  | e :: es => scrollRun (scrollStep s e) es

/-! ## The incremental loader (spec-modelled)

The `useInfiniteForms` hook that owns LoadState, Cursor and ResultSet is not
among the sources at hand (only its caller `FormsDashboard` is), so its state
machine is modelled from the specification. -/

/-- Modelled from the spec: the `LoadState` enumeration of the
IncrementalListLoader (the `useInfiniteForms` hook, whose implementation is
not under the sources): Idle, Loading-initial, Validating-more, Exhausted,
Errored. -/
inductive LoadState
  | idle
  | loadingInitial
  | validatingMore
  | exhausted
  | errored
deriving DecidableEq, Repr

/-- Modelled from the spec: the LoadState-derived boolean `isLoading` exposed
to the renderer. -/
def LoadState.isLoading : LoadState → Bool
  | .loadingInitial => true
  | _ => false

/-- Modelled from the spec: the LoadState-derived boolean `isValidating`
exposed to the renderer. -/
def LoadState.isValidating : LoadState → Bool
  | .validatingMore => true
  | _ => false

/-- Modelled from the spec: `hasMore` is the negation of the ExhaustedFlag. -/
def LoadState.hasMore : LoadState → Bool
  | .exhausted => false
  | _ => true

/-- Modelled from the spec: the mutable state of the IncrementalListLoader
(the `useInfiniteForms` hook): committed term, accumulated ResultSet, page
cursor, BusyFlag and ExhaustedFlag. -/
structure LoaderState where
  committedTerm : String
  resultSet : List CompletedFormInfo
  page : Nat
  busy : Bool
  exhausted : Bool
deriving DecidableEq, Repr

/-- Modelled from the spec: settling of a fetch response in the loader.  Each
request is tagged with the committed term in effect at issue time; a response
whose tag no longer matches the current committed term is stale and is
discarded — its items are never merged.  A current response is appended in
order, advances the cursor and records exhaustion. -/
def onFetchSettled (s : LoaderState) (tag : String)
    (items : List CompletedFormInfo) (more : Bool) : LoaderState :=
  if tag = s.committedTerm then
    { s with
      resultSet := s.resultSet ++ items
      page := s.page + 1
      busy := false
      exhausted := !more }
  else
    { s with busy := false }

/-- Modelled from the spec: committing a new term in server mode is a full
reset — new committed term, empty ResultSet, cursor back to the start, first
fetch issued (busy), ExhaustedFlag cleared. -/
def setCommittedTermServer (_s : LoaderState) (t : String) : LoaderState :=
  { committedTerm := t, resultSet := [], page := 0, busy := true, exhausted := false }

/-! ## Render-level behaviour of `FormsList` and `FormsDashboard` -/

/-- The shapes `FormsList` can render: the loading skeleton, the empty
fragment, or the table view.  The table always carries the search input; the
load-more sentinel and the end-of-results indicator (displaying the
total-loaded count) are conditional. -/
inductive ListView
  | skeleton
  | emptyFragment
  | table (hasSearchInput loadMoreSentinel : Bool) (endOfResults : Option Nat)
deriving DecidableEq, Repr

/-- Render function of the infinite-scroll `FormsList`: skeleton while no
data and loading/validating; empty fragment when the list is empty and not
loading; otherwise the table, with the sentinel iff `hasMore` and the
end-of-results indicator iff `!hasMore` with a nonempty list. -/
def renderFormsList (completedForms : Option (List CompletedFormInfo))
    (hasError isLoading isValidating enableInfiniteScrolling hasMore : Bool)
    (totalLoaded : Nat) : ListView :=
  if completedForms.isNone && !hasError && (isLoading || isValidating) then
    .skeleton
  else if (match completedForms with
           | some l => l.isEmpty
           | none => false) && !isLoading then
    .emptyFragment
  else if enableInfiniteScrolling then
    .table true hasMore
      (if !hasMore && (match completedForms with
                       | some l => decide (0 < l.length)
                       | none => false) then some totalLoaded else none)
  else
    .table true false none

/-- Render function of the client-mode `FormsList`: skeleton while no data
and no error; empty fragment for an empty list; otherwise the plain table. -/
def renderFormsListClient (completedForms : Option (List CompletedFormInfo))
    (hasError : Bool) : ListView :=
  if completedForms.isNone && !hasError then .skeleton
  else if (match completedForms with
           | some l => l.isEmpty
           | none => false) then .emptyFragment
  else .table true false none

/-- The shapes `FormsDashboard` can render. -/
inductive DashboardView
  | emptyState
  | flatList
  | sectionLists (count : Nat)
deriving DecidableEq, Repr

/-- The `sections` memo of `FormsDashboard`:
`config.formSections?.map(...)` — `none` when `formSections` is absent,
otherwise each configured section paired with the forms whose uuid or name it
lists. -/
def sectionsOf (formSections : Option (List FormSection))
    (forms : Option (List CompletedFormInfo)) :
    Option (List (FormSection × Option (List CompletedFormInfo))) :=
  formSections.map fun fss =>
    fss.map fun fs =>
      (fs, forms.map fun l =>
        l.filter fun fi => fs.forms.any fun fc =>
          fi.form.uuid = fc || fi.form.name = fc)

/-- Render function of `FormsDashboard`: the empty state when the loaded
forms list is empty; otherwise `sections.length` is read — a type error when
`formSections` was absent (`sections` is undefined), else the flat list or
one list per section. -/
def renderFormsDashboard (forms : Option (List CompletedFormInfo))
    (formSections : Option (List FormSection)) : Except String DashboardView :=
  match forms with
  | some [] => .ok .emptyState
  | _ =>
    match sectionsOf formSections forms with
    | none => .error "TypeError: cannot read length of undefined sections"
    | some ss => if ss.length = 0 then .ok .flatList else .ok (.sectionLists ss.length)

/-! ## Client-mode search commit (frame effect)

In the client-mode pairing, `useForms` is called without the search term and
the context's `setSearchTerm` is the only thing the debounced commit calls;
the key the data hook is keyed on does not mention the term. -/

/-- The arguments the client-mode dashboard passes to `useForms` — the fetch
key; the search term is not among them. -/
structure FetchKey where
  patientUuid : String
  visitUuid : Option String
  offline : Bool
  orderBy : Option String
deriving DecidableEq, Repr

/-- Client-mode search state: committed term, accumulated forms, and the
fetch key of the data hook. -/
structure ClientSearchState where
  searchTerm : String
  completedForms : Option (List CompletedFormInfo)
  fetchKey : FetchKey
deriving DecidableEq, Repr

/-- Committing a term in client mode: the debounced handler calls only
`setSearchTerm`. -/
def commitSearchTerm (s : ClientSearchState) (t : String) : ClientSearchState :=
  { s with searchTerm := t }

/-- The rows the client-mode `FormsList` displays: the fuzzy filter over the
accumulated forms and the committed term. -/
def displayedRows (score : String → String → Option Nat)
    (s : ClientSearchState) : Option (List CompletedFormInfo) :=
  s.completedForms.map fun l => filteredFormsClient score s.searchTerm l

/-! ## Teardown and pending timers

On unmount, the cleanups registered by the component run: the observer is
disconnected, the force re-check timeout is cleared, the language listener is
removed.  No cleanup cancels the debounced search handler, so its pending
trailing call is untouched. -/

/-- The timers and subscriptions the infinite-scroll `FormsList` holds: the
pending trailing call of the debounced search (fire time and value), the
pending force re-check timeout, the observer and the language listener. -/
structure RuntimeTimers where
  pendingDebounce : Option (Nat × String)
  pendingRecheck : Option Nat
  observerAttached : Bool
  langListenerAttached : Bool
deriving DecidableEq, Repr

/-- A raw input event at time `t`: the debounced handler (interval 1000ms)
reschedules its trailing call to `t + 1000` with the latest value. -/
def onInputEvent (s : RuntimeTimers) (t : Nat) (v : String) : RuntimeTimers :=
  { s with pendingDebounce := some (t + 1000, v) }

/-- The unmount cleanups present in the source: `observer.disconnect()`,
`clearTimeout(timeoutId)` of the re-check effect, `window.i18next.off(...)`.
The debounced handler has no cancel cleanup, so `pendingDebounce` is kept. -/
def unmountCleanup (s : RuntimeTimers) : RuntimeTimers :=
  { s with observerAttached := false, pendingRecheck := none, langListenerAttached := false }

/-- The committed-term emissions that fire strictly after time `td`: a
pending trailing call still scheduled past `td` fires then. -/
def emissionsAfter (td : Nat) (s : RuntimeTimers) : List (Nat × String) :=
  match s.pendingDebounce with
  | some (f, v) => if td < f then [(f, v)] else []
  | none => []

/-! ## Concrete records for witnesses -/

/-- A concrete scorer: matches labels at least as long as the term, scoring
by length difference (lower = closer in length). -/
def demoScore (term label : String) : Option Nat :=
  if term.length ≤ label.length then some (label.length - term.length) else none

/-- A concrete form with a display label. -/
def demoForm1 : Form :=
  ⟨"uuid-1", "Admission Note", some "Admission", true, false, "1"⟩

/-- A concrete form without a display label. -/
def demoForm2 : Form :=
  ⟨"uuid-2", "Lab", none, true, false, "1"⟩

/-- A concrete accumulated result set. -/
def demoForms : List CompletedFormInfo :=
  [⟨demoForm1, [⟨"enc-1"⟩], some 5⟩, ⟨demoForm2, [], none⟩]

/-! ## Helper lemmas -/

theorem debounceEmits_rapid (interval : Nat) :
    ∀ (x : Nat × String) (xs : List (Nat × String)), rapid interval (x :: xs) →
      debounceEmits interval (x :: xs) =
        [((xs.getLastD x).1 + interval, (xs.getLastD x).2)] := by
  intro x xs
  induction xs generalizing x with
  | nil => intro _; rfl
  | cons y ys ih =>
    intro h
    rcases List.chain'_cons.mp h with ⟨hxy, h2⟩
    rcases x with ⟨t, v⟩
    rcases y with ⟨t2, v2⟩
    rw [debounceEmits, if_pos hxy, ih ⟨t2, v2⟩ h2, List.getLastD_cons]

/-! ## Claim theorems -/

/-- C1: the claim states that the guard's busy condition is established
synchronously at admission, so of two continuation requests in immediate
succession at most one fetch is admitted.  Evaluating the code at the failing
input refutes this: from a snapshot with `hasMore = true`,
`isValidating = false`, two intersection events arriving before any re-render
are both admitted (`loadMore` is called twice), and an admission leaves the
closure's `isValidating` untouched — nothing is set synchronously. -/
theorem c1_double_admission_eval :
    (scrollRun ⟨⟨true, false⟩, 0⟩ [.intersect true, .intersect true]).loadMoreCalls = 2 ∧
    (scrollStep ⟨⟨true, false⟩, 0⟩ (.intersect true)).snap.isValidating = false := by
  decide

/-- C2 counterexample: with the LoadState-derived booleans of the spec, the
state Loading-initial exposes `isLoading = true`, `isValidating = false`,
`hasMore = true`; both the IntersectionObserver guard and the force re-check
effect guard admit a continuation in that state, so the claimed invariant
(no admission while Loading-initial) fails. -/
theorem c2_loading_initial_admitted :
    LoadState.loadingInitial.isLoading = true ∧
    observerGuard true LoadState.loadingInitial.hasMore
      LoadState.loadingInitial.isValidating = true ∧
    recheckEffectGuard true LoadState.loadingInitial.hasMore
      LoadState.loadingInitial.isValidating true = true := by
  decide

/-- C2 (amended): every trigger path admits a continuation only when the
snapshot shows `hasMore = true` and `isValidating = false`; hence never while
the load state is Validating-more and never when Exhausted.  None of the
guards consults `isLoading`, so Loading-initial is not excluded. -/
theorem c2_guard_invariant (ii np op hm iv ei lp cp lrp rfe fp : Bool)
    (nt ih chh vh lmt : Int) (fc tl : Nat) :
    (observerGuard ii hm iv = true → iv = false ∧ hm = true) ∧
    (attachObserveGuard np op hm ei = true → hm = true) ∧
    (attachTimeoutGuard nt ih hm iv = true → iv = false ∧ hm = true) ∧
    (recheckAdmits ei hm iv lp cp chh vh lrp lmt rfe fp fc tl = true →
      iv = false ∧ hm = true) ∧
    (∀ ls : LoadState, observerGuard ii ls.hasMore ls.isValidating = true →
      ls ≠ LoadState.validatingMore ∧ ls ≠ LoadState.exhausted) := by
  refine ⟨?_, ?_, ?_, ?_, ?_⟩
  · intro h
    simp only [observerGuard, Bool.and_eq_true, Bool.not_eq_true'] at h
    tauto
  · intro h
    simp only [attachObserveGuard, Bool.and_eq_true] at h
    tauto
  · intro h
    simp only [attachTimeoutGuard, Bool.and_eq_true, Bool.not_eq_true'] at h
    tauto
  · intro h
    simp only [recheckAdmits, recheckEffectGuard, Bool.and_eq_true,
      Bool.not_eq_true'] at h
    tauto
  · intro ls h
    cases ls <;>
      simp [observerGuard, LoadState.hasMore, LoadState.isValidating] at h ⊢

/-- C2 witness: the observer guard admitting at a concrete snapshot yields
`isValidating = false` and `hasMore = true` there. -/
theorem c2_guard_invariant_witness :
    (false : Bool) = false ∧ (true : Bool) = true :=
  (c2_guard_invariant true true true true false true true true false true true
    0 1 0 1 0 0 0).1 (by decide)

/-- C4: once `hasMore` is false, every continuation trigger path — the
IntersectionObserver callback, the attachment-time visibility check of
`setLoadMoreRef`, and the force re-check effect — rejects the request, and
(spec-modelled loader) a committed-term change resets the exhausted flag. -/
theorem c4_exhausted_never_fetches (ii np op iv ei lp cp lrp rfe fp : Bool)
    (nt ih chh vh lmt : Int) (fc tl : Nat) (s : LoaderState) (t : String)
    (hm : Bool) (h : hm = false) :
    observerGuard ii hm iv = false ∧
    attachObserveGuard np op hm ei = false ∧
    attachTimeoutGuard nt ih hm iv = false ∧
    recheckAdmits ei hm iv lp cp chh vh lrp lmt rfe fp fc tl = false ∧
    (setCommittedTermServer s t).exhausted = false := by
  subst h
  refine ⟨?_, ?_, ?_, ?_, rfl⟩ <;>
    simp [observerGuard, attachObserveGuard, attachTimeoutGuard,
      recheckAdmits, recheckEffectGuard]

/-- C4 witness: at a concrete exhausted snapshot every path rejects and the
term-change reset clears the flag. -/
theorem c4_exhausted_never_fetches_witness :
    observerGuard true false false = false ∧
    attachObserveGuard true true false true = false ∧
    attachTimeoutGuard 0 1 false false = false ∧
    recheckAdmits true false false true true 0 100 true 0 true true 1 2 = false ∧
    (setCommittedTermServer ⟨"", demoForms, 3, false, true⟩ "xyz").exhausted = false :=
  c4_exhausted_never_fetches true true true false true true true true true true
    0 1 0 100 0 1 2 ⟨"", demoForms, 3, false, true⟩ "xyz" false rfl

/-- C3: a fetch response whose term tag differs from the current committed
term is stale and discarded: the ResultSet, the committed term, the cursor
and the exhausted flag are all left unchanged (spec-modelled loader). -/
theorem c3_stale_response_discarded (s : LoaderState) (tag : String)
    (items : List CompletedFormInfo) (more : Bool) (h : tag ≠ s.committedTerm) :
    (onFetchSettled s tag items more).resultSet = s.resultSet ∧
    (onFetchSettled s tag items more).committedTerm = s.committedTerm ∧
    (onFetchSettled s tag items more).page = s.page ∧
    (onFetchSettled s tag items more).exhausted = s.exhausted := by
  simp [onFetchSettled, h]

/-- C3 witness: the spec scenario — the committed term changes from "" to
"xyz" mid-fetch; the page response tagged with "" is not merged into the
ResultSet of the "xyz" query. -/
theorem c3_stale_response_discarded_witness :
    ("" : String) ≠ (setCommittedTermServer ⟨"", [], 2, true, false⟩ "xyz").committedTerm ∧
    (onFetchSettled (setCommittedTermServer ⟨"", [], 2, true, false⟩ "xyz")
        "" demoForms true).resultSet =
      (setCommittedTermServer ⟨"", [], 2, true, false⟩ "xyz").resultSet :=
  ⟨by decide,
   (c3_stale_response_discarded (setCommittedTermServer ⟨"", [], 2, true, false⟩ "xyz")
     "" demoForms true (by decide)).1⟩

/-- C5 counterexample: in server mode (`onSearch` supplied, infinite
scrolling on) the table's search handler is `onSearch` itself, not the
debounced handler: a two-keystroke burst produces two immediate emissions,
including the intermediate value — not exactly one after a 1000ms quiet
interval. -/
theorem c5_server_mode_not_debounced :
    searchEmissions true true [(0, "a"), (5, "ab")] = [(0, "a"), (5, "ab")] ∧
    (searchEmissions true true [(0, "a"), (5, "ab")]).length ≠ 1 ∧
    (0, "a") ∈ searchEmissions true true [(0, "a"), (5, "ab")] := by
  decide

/-- C5 (amended): the client-mode debouncer (300ms) emits exactly one
committed-term event carrying the last raw value, 300ms after it, for any
burst of inputs arriving faster than the interval; the 1000ms debouncer is
used whenever no server-side `onSearch` handler is supplied and behaves the
same way; but with a server-side handler supplied the raw inputs are
forwarded one-for-one with no debouncing. -/
theorem c5_debounce_behaviour (x : Nat × String) (xs inputs : List (Nat × String))
    (ei : Bool) (hc : rapid 300 (x :: xs)) :
    searchEmissionsClient (x :: xs) =
      [((xs.getLastD x).1 + 300, (xs.getLastD x).2)] ∧
    searchEmissions ei false (x :: xs) =
      [((xs.getLastD x).1 + 1000, (xs.getLastD x).2)] ∧
    searchEmissions true true inputs = inputs := by
  have hs : rapid 1000 (x :: xs) :=
    List.Chain'.imp (fun a b hab => by omega) hc
  refine ⟨debounceEmits_rapid 300 x xs hc, ?_, rfl⟩
  cases ei <;>
    simp [searchEmissions, debounceEmits_rapid 1000 x xs hs]

/-- C5 witness: a concrete two-keystroke burst. -/
theorem c5_debounce_behaviour_witness :
    searchEmissionsClient [(0, "a"), (100, "ab")] = [(400, "ab")] ∧
    searchEmissions false false [(0, "a"), (100, "ab")] = [(1100, "ab")] ∧
    searchEmissions true true [(0, "a"), (100, "ab")] = [(0, "a"), (100, "ab")] :=
  c5_debounce_behaviour (0, "a") [(100, "ab")] [(0, "a"), (100, "ab")] false
    (List.chain'_pair.mpr (by norm_num))

/-- C6: client-mode filtering — an empty committed term returns the
accumulated list unchanged (order preserved); a non-empty term yields only
items whose display label the scorer matches, in ascending score order. -/
theorem c6_client_filter_correct (score : String → String → Option Nat)
    (term : String) (l : List CompletedFormInfo) :
    (term = "" → filteredFormsClient score term l = l) ∧
    (term ≠ "" →
      (∀ fi ∈ filteredFormsClient score term l,
        (score term (displayLabel fi)).isSome = true) ∧
      List.Sorted (· ≤ ·)
        ((filteredFormsClient score term l).filterMap
          fun fi => score term (displayLabel fi))) := by
  constructor
  · intro h
    simp [filteredFormsClient, h]
  · intro h
    have hmem : ∀ p ∈ List.insertionSort scoreLE (fuzzyFilter score term l),
        score term (displayLabel p.2) = some p.1 := fun p hp =>
      fuzzyFilter_score_eq score term l p
        ((List.perm_insertionSort scoreLE _).mem_iff.mp hp)
    constructor
    · intro fi hfi
      rw [filteredFormsClient, if_neg h] at hfi
      rcases List.mem_map.mp hfi with ⟨p, hp, hpe⟩
      rw [← hpe, hmem p hp]
      rfl
    · rw [filteredFormsClient, if_neg h,
        filterMap_label_eq_map_fst score term _ hmem]
      exact List.pairwise_map.mpr (List.sorted_insertionSort scoreLE _)

/-- C6 witness: a concrete non-empty term over a concrete accumulated list;
every retained item has a match and the recomputed scores are ascending. -/
theorem c6_client_filter_correct_witness :
    (∀ fi ∈ filteredFormsClient demoScore "ab" demoForms,
      (demoScore "ab" (displayLabel fi)).isSome = true) ∧
    List.Sorted (· ≤ ·)
      ((filteredFormsClient demoScore "ab" demoForms).filterMap
        fun fi => demoScore "ab" (displayLabel fi)) :=
  (c6_client_filter_correct demoScore "ab" demoForms).2 (by decide)

/-- C7: committing a new term in client mode only changes the committed term:
the accumulated forms and the data hook's fetch key are untouched (no network
effect), and the displayed rows become the fuzzy filter of the new term over
the same accumulated forms. -/
theorem c7_client_commit_frame (score : String → String → Option Nat)
    (s : ClientSearchState) (t : String) :
    (commitSearchTerm s t).completedForms = s.completedForms ∧
    (commitSearchTerm s t).fetchKey = s.fetchKey ∧
    displayedRows score (commitSearchTerm s t) =
      s.completedForms.map fun l => filteredFormsClient score t l :=
  ⟨rfl, rfl, rfl⟩

/-- C8 counterexample: a keystroke at t=0 schedules the trailing emission at
t=1000; teardown at t=500 runs the source's cleanups, which leave the pending
debounced call untouched, so the committed-term emission still fires at
t=1000 — after teardown.  The claim that no emission fires after teardown is
false. -/
theorem c8_emission_after_teardown :
    emissionsAfter 500
      (unmountCleanup (onInputEvent ⟨none, some 300, true, true⟩ 0 "ab")) =
      [(1000, "ab")] ∧
    500 < 1000 := by
  decide

/-- C8 (amended): teardown disconnects the observer, clears the force
re-check timeout and removes the language listener, but never cancels the
debounced search handler: the pending committed-term emission survives
teardown un-discarded. -/
theorem c8_teardown_keeps_debounce (s : RuntimeTimers) :
    (unmountCleanup s).pendingRecheck = none ∧
    (unmountCleanup s).observerAttached = false ∧
    (unmountCleanup s).langListenerAttached = false ∧
    (unmountCleanup s).pendingDebounce = s.pendingDebounce :=
  ⟨rfl, rfl, rfl, rfl⟩

/-- C9: rendering the dashboard past the empty-state branch reads
`sections.length` unguarded; with `formSections` absent this is a type error,
and with it present rendering succeeds — so every render path through the
non-empty branch presupposes `formSections` is defined. -/
theorem c9_sections_requires_config (l : List CompletedFormInfo) (h : l ≠ []) :
    renderFormsDashboard (some l) none =
      .error "TypeError: cannot read length of undefined sections" ∧
    ∀ fss : List FormSection, ∃ v,
      renderFormsDashboard (some l) (some fss) = .ok v := by
  cases l with
  | nil => exact absurd rfl h
  | cons a as =>
    constructor
    · rfl
    · intro fss
      simp only [renderFormsDashboard, sectionsOf, Option.map_some']
      split <;> exact ⟨_, rfl⟩

/-- C9 witness: a concrete non-empty forms list. -/
theorem c9_sections_requires_config_witness :
    renderFormsDashboard (some demoForms) none =
      .error "TypeError: cannot read length of undefined sections" ∧
    ∃ v, renderFormsDashboard (some demoForms) (some []) = .ok v :=
  ⟨(c9_sections_requires_config demoForms (by decide)).1,
   (c9_sections_requires_config demoForms (by decide)).2 []⟩

/-- C10: with an empty (defined) forms list — and, in the infinite-scroll
variant, `isLoading` false — `FormsList` renders the empty fragment: no
table, no search input, no load-more sentinel, no end-of-results indicator,
regardless of error, validation, `hasMore` or `totalLoaded`. -/
theorem c10_empty_list_renders_nothing
    (hasError isValidating enableInfiniteScrolling hasMore : Bool)
    (totalLoaded : Nat) :
    renderFormsList (some []) hasError false isValidating
      enableInfiniteScrolling hasMore totalLoaded = .emptyFragment ∧
    renderFormsListClient (some []) hasError = .emptyFragment := by
  constructor <;> simp [renderFormsList, renderFormsListClient]

end FormsApp
